import Mathlib

/-!
Verification of the SwiGLU example program (minimal_swiglu.cpp).

The program is a single linear pipeline of calls into an external tensor
engine: it defines a small dataflow graph (two gate/up projections, a
sigmoid, two element-wise multiplies and a down projection), compiles it
into a runtime backed by a workspace, binds an input and an output buffer,
invokes it once, prints the output and tears everything down.

The development has three parts:
1. a trace model of the call sequence in main, with one status-environment
   parameter giving the status returned by each checked engine call; this
   settles the lifecycle / error-handling / I-O claims;
2. a model of the subgraph the program builds (tensor values and operator
   nodes, with the engine's evaluation semantics for fully-connected,
   sigmoid and multiply nodes modelled from the spec over the reals);
3. interval bounds on the real sigmoid needed for the literal numeric claim.
-/

/-! ### Part 1: trace model of main -/

/-- Status value of a successful engine call (xnn_status_success = 0). -/
def statusOk : ℕ := 0

/-- One observable event of a run of main.  call records an engine call
whose returned status the program checks, callU an engine call whose
returned status the program ignores (the teardown calls), stderrLine a
diagnostic printed to standard error, stdoutOutput the single printf of the
two output values to standard output. -/
inductive Event where
  | call (name : String) (st : ℕ)
  | callU (name : String)
  | stderrLine (s : String)
  | stdoutOutput
deriving DecidableEq

/-- The checked engine calls of main, in program order (lines 27-422 of
minimal_swiglu.cpp). -/
def callSeq : List String :=
  ["xnn_initialize",
   "xnn_create_subgraph",
   "xnn_define_tensor_value",
   "xnn_define_tensor_value",
   "xnn_define_tensor_value",
   "xnn_define_tensor_value",
   "xnn_define_fully_connected",
   "xnn_define_tensor_value",
   "xnn_define_tensor_value",
   "xnn_define_fully_connected",
   "xnn_define_tensor_value",
   "xnn_define_unary",
   "xnn_define_tensor_value",
   "xnn_define_multiply2",
   "xnn_define_tensor_value",
   "xnn_define_multiply2",
   "xnn_define_tensor_value",
   "xnn_define_fully_connected",
   "xnn_create_workspace",
   "xnn_create_runtime_v4",
   "xnn_reshape_external_value",
   "xnn_reshape_external_value",
   "xnn_reshape_runtime",
   "xnn_setup_runtime_v2",
   "xnn_invoke_runtime"]

/-- The diagnostic line main prints when the k-th checked call fails with
status st.  Call 0 (xnn_initialize, line 28) prints a fixed message without
the status code; every later failure prints the call name and the status
(the "%s failed: %d" pattern of the source). -/
def diagFor (k : ℕ) (name : String) (st : ℕ) : String :=
  if k = 0 then "Failed to initialize XNNPACK"
  else name ++ " failed: " ++ toString st

/-- Run the checked calls whose names are in l, the first one having global
index k; env gives the status returned by the engine for each call index.
Mirrors the uniform "if (status != xnn_status_success) { fprintf; return 1; }"
pattern of the source: the first failing call is the last call made, is
followed by exactly one stderr line, and aborts the run (Bool false). -/
def runStages (env : ℕ → ℕ) (k : ℕ) : List String → List Event × Bool
  | [] => ([], true)
  | name :: rest =>
    let st := env k
    if st = statusOk then
      (Event.call name st :: (runStages env (k + 1) rest).1,
       (runStages env (k + 1) rest).2)
    else
      ([Event.call name st, Event.stderrLine (diagFor k name st)], false)

/-- Trace and process exit code of one run of main, as a function of the
statuses the engine returns.  On full success the program prints the output
line and then performs the four teardown calls of lines 428-431 in source
order (delete runtime, release workspace, delete subgraph, deinitialize);
on any failure it stops at the diagnostic with exit code 1 and performs no
further call. -/
def runTrace (env : ℕ → ℕ) : List Event × ℕ :=
  match runStages env 0 callSeq with
  | (evs, true) =>
      (evs ++ [Event.stdoutOutput,
               Event.callU "xnn_delete_runtime",
               Event.callU "xnn_release_workspace",
               Event.callU "xnn_delete_subgraph",
               Event.callU "xnn_deinitialize"], 0)
  | (evs, false) => (evs, 1)

/-- Recognize an unchecked (teardown) call with the given name. -/
def isCallU (n : String) : Event → Bool
  | .callU m => m == n
  | _ => false

/-- Recognize a checked call with the given name (any status). -/
def isCall (n : String) : Event → Bool
  | .call m _ => m == n
  | _ => false

/-- Recognize a stderr diagnostic line. -/
def isStderr : Event → Bool
  | .stderrLine _ => true
  | _ => false

/-- Recognize the stdout output line. -/
def isStdout : Event → Bool
  | .stdoutOutput => true
  | _ => false

/-- Recognize any release/teardown call. -/
def isRelease (e : Event) : Bool :=
  isCallU "xnn_delete_runtime" e || isCallU "xnn_release_workspace" e ||
    isCallU "xnn_delete_subgraph" e || isCallU "xnn_deinitialize" e

/-! ### Part 2: the subgraph the program builds, and its semantics

The engine (XNNPACK) lives outside src/; its graph representation,
id assignment and operator semantics are modelled from the spec, over the
reals (the spec's own mathematical description of the computation).
The call sequence, tensor shapes, buffers and flags are taken from the
source of main. -/

/-- INPUT_DIM of the source. -/
def inputDim : ℕ := 3

/-- OUTPUT_DIM of the source. -/
def outputDim : ℕ := 2

/-- INTER_DIM of the source. -/
def interDim : ℕ := 4

noncomputable section

/-- w1_weight_data after the initialization loops (lines 39-43):
the entry at flat index k = i*INPUT_DIM+j is (i*INPUT_DIM+j+1)/(INTER_DIM*INPUT_DIM). -/
def w1Data : ℕ → ℝ := fun k =>
  if k < interDim * inputDim then ((k : ℝ) + 1) / ((interDim * inputDim : ℕ) : ℝ) else 0

/-- w2_weight_data after the initialization loops (lines 46-50):
the entry at flat index k = i*INTER_DIM+j is (i*INTER_DIM+j+1)/(OUTPUT_DIM*INTER_DIM). -/
def w2Data : ℕ → ℝ := fun k =>
  if k < outputDim * interDim then ((k : ℝ) + 1) / ((outputDim * interDim : ℕ) : ℝ) else 0

/-- input_data = { 1.0f, 2.0f, 3.0f } (line 375). -/
def inputData : ℕ → ℝ := fun k =>
  if k = 0 then 1 else if k = 1 then 2 else if k = 2 then 3 else 0

/-- The only datatype the program uses. -/
inductive XDatatype where
  | fp32
deriving DecidableEq

/-- One tensor value of the graph: id, datatype, shape, optional constant
data buffer, optional external id, and the two external flags. -/
structure TensorDef where
  tid : ℕ
  dtype : XDatatype
  dims : List ℕ
  tdata : Option (ℕ → ℝ)
  extId : Option ℕ
  flagIn : Bool
  flagOut : Bool

/-- The only unary operator kind the program uses. -/
inductive UnaryKind where
  | sigmoid
deriving DecidableEq

/-- One operator node of the graph.  The output bounds are none for an
unbounded (-INFINITY / INFINITY) bound; the bias id is none for
XNN_INVALID_VALUE_ID (no bias). -/
inductive OpNode where
  | fullyConnected (outputMin outputMax : Option ℝ) (inputId filterId : ℕ)
      (biasId : Option ℕ) (outputId : ℕ)
  | unary (kind : UnaryKind) (inputId outputId : ℕ)
  | multiply2 (outputMin outputMax : Option ℝ) (input1 input2 outputId : ℕ)

/-- A subgraph under construction: reserved external id count, tensor
values, operator nodes, and the next free internal value id. -/
structure Subgraph where
  externalCount : ℕ
  tensors : List TensorDef
  ops : List OpNode
  nextId : ℕ

/-- Modelled from the spec: xnn_create_subgraph reserves the external value
ids 0..N-1 ("external input/output identifiers are unique and dense
(0..N-1)"), so internal ids are assigned from N upward. -/
def createSubgraphM (extCount : ℕ) : Subgraph :=
  ⟨extCount, [], [], extCount⟩

/-- Modelled from the spec: xnn_define_tensor_value appends a tensor value;
a tensor carrying external id e is addressed by value id e, an internal
tensor (external id XNN_INVALID_VALUE_ID, modelled none) receives the next
unassigned internal id. -/
def defineTensorValue (sg : Subgraph) (dims : List ℕ) (d : Option (ℕ → ℝ))
    (ext : Option ℕ) (extIn extOut : Bool) : Subgraph × ℕ :=
  match ext with
  | some e =>
      ({ sg with tensors := sg.tensors ++ [⟨e, .fp32, dims, d, some e, extIn, extOut⟩] }, e)
  | none =>
      ({ sg with
          tensors := sg.tensors ++ [⟨sg.nextId, .fp32, dims, d, none, extIn, extOut⟩],
          nextId := sg.nextId + 1 }, sg.nextId)

/-- xnn_define_fully_connected: append a fully-connected node. -/
def defineFullyConnected (sg : Subgraph) (lo hi : Option ℝ) (inputId filterId : ℕ)
    (biasId : Option ℕ) (outputId : ℕ) : Subgraph :=
  { sg with ops := sg.ops ++ [.fullyConnected lo hi inputId filterId biasId outputId] }

/-- xnn_define_unary: append a unary node. -/
def defineUnary (sg : Subgraph) (kind : UnaryKind) (inputId outputId : ℕ) : Subgraph :=
  { sg with ops := sg.ops ++ [.unary kind inputId outputId] }

/-- xnn_define_multiply2: append an element-wise multiply node. -/
def defineMultiply2 (sg : Subgraph) (lo hi : Option ℝ) (input1 input2 outputId : ℕ) :
    Subgraph :=
  { sg with ops := sg.ops ++ [.multiply2 lo hi input1 input2 outputId] }

/-- The subgraph main builds (lines 52-346), with the tensor shapes, data
buffers, external ids and flags of the source, in source order.  The
-INFINITY / INFINITY clamp arguments denote unbounded bounds and are
modelled as none; the w3 filter tensor is defined from the same buffer
w1_weight_data as the w1 filter tensor (line 167). -/
def swigluGraph : Subgraph :=
  let sg := createSubgraphM 2
  let pIn := defineTensorValue sg [1, inputDim] none (some 0) true false
  let pOut := defineTensorValue pIn.1 [1, outputDim] none (some 1) false true
  let pW1 := defineTensorValue pOut.1 [interDim, inputDim] (some w1Data) none false false
  let pGate := defineTensorValue pW1.1 [1, interDim] none none false false
  let sGate := defineFullyConnected pGate.1 none none pIn.2 pW1.2 none pGate.2
  let pW3 := defineTensorValue sGate [interDim, inputDim] (some w1Data) none false false
  let pUp := defineTensorValue pW3.1 [1, interDim] none none false false
  let sUp := defineFullyConnected pUp.1 none none pIn.2 pW3.2 none pUp.2
  let pSig := defineTensorValue sUp [1, interDim] none none false false
  let sSig := defineUnary pSig.1 .sigmoid pGate.2 pSig.2
  let pSilu := defineTensorValue sSig [1, interDim] none none false false
  let sSilu := defineMultiply2 pSilu.1 none none pGate.2 pSig.2 pSilu.2
  let pFused := defineTensorValue sSilu [1, interDim] none none false false
  let sFused := defineMultiply2 pFused.1 none none pSilu.2 pUp.2 pFused.2
  let pW2 := defineTensorValue sFused [outputDim, interDim] (some w2Data) none false false
  defineFullyConnected pW2.1 none none pFused.2 pW2.2 none pOut.2

/-- Clamp a value by optional lower/upper bounds; none means unbounded. -/
def clampOpt : Option ℝ → Option ℝ → ℝ → ℝ
  | none, none, v => v
  | some a, none, v => max a v
  | none, some b, v => min b v
  | some a, some b, v => min b (max a v)

/-- Look up a tensor value by id. -/
def findTensor (sg : Subgraph) (tid : ℕ) : Option TensorDef :=
  sg.tensors.find? (fun t => t.tid == tid)

/-- The recorded shape of a tensor value. -/
def dimsOf (sg : Subgraph) (tid : ℕ) : List ℕ :=
  ((findTensor sg tid).map (fun t => t.dims)).getD []

/-- The value environment before any operator runs: constant tensors hold
their data buffer, external tensors the buffer bound to their external id,
internal intermediates are zero-initialized scratch. -/
def initEnv (sg : Subgraph) (ext : ℕ → ℕ → ℝ) : ℕ → ℕ → ℝ := fun tid =>
  match findTensor sg tid with
  | some t =>
      match t.tdata with
      | some d => d
      | none =>
          match t.extId with
          | some e => ext e
          | none => fun _ => 0
  | none => fun _ => 0

/-- Modelled from the spec: the engine's operator semantics over the reals.
A fully-connected node with row-major filter of shape [rows, cols] computes
out i = sum of W[i*cols+j] * in j over j < cols, adds a bias only when a
bias id is present, and clamps by its output bounds; sigmoid and multiply2
are element-wise. -/
def applyOp (sg : Subgraph) (σ : ℝ → ℝ) (env : ℕ → ℕ → ℝ) : OpNode → (ℕ → ℕ → ℝ)
  | .fullyConnected lo hi inId fId biasId outId =>
      let cols := (dimsOf sg fId).getD 1 0
      let out : ℕ → ℝ :=
        match biasId with
        | none => fun i =>
            clampOpt lo hi (∑ j ∈ Finset.range cols, env fId (i * cols + j) * env inId j)
        | some b => fun i =>
            clampOpt lo hi
              ((∑ j ∈ Finset.range cols, env fId (i * cols + j) * env inId j) + env b i)
      fun t => if t = outId then out else env t
  | .unary .sigmoid inId outId =>
      fun t => if t = outId then (fun k => σ (env inId k)) else env t
  | .multiply2 lo hi aId bId outId =>
      fun t => if t = outId then (fun k => clampOpt lo hi (env aId k * env bId k)) else env t

/-- Run the operator nodes in definition order (a topological order of the
DAG) on the initial environment. -/
def evalSubgraph (sg : Subgraph) (σ : ℝ → ℝ) (ext : ℕ → ℕ → ℝ) : ℕ → ℕ → ℝ :=
  sg.ops.foldl (applyOp sg σ) (initEnv sg ext)

/-- The external-value binding of main (lines 379-387): external id 0 is
the input buffer, external id 1 the output buffer. -/
def extBind (x out0 : ℕ → ℝ) : ℕ → ℕ → ℝ := fun e =>
  if e = 0 then x else if e = 1 then out0 else fun _ => 0

/-- The real sigmoid function. -/
def sigmoidR (t : ℝ) : ℝ := 1 / (1 + Real.exp (-t))

/-- SiLU as the spec defines it: x * sigmoid(x). -/
def siluR (t : ℝ) : ℝ := t * sigmoidR t

/-- Row-major matrix-vector product: row i of W (with cols columns) dotted
with x.  This is the spec's W @ x. -/
def matVec (cols : ℕ) (W x : ℕ → ℝ) (i : ℕ) : ℝ :=
  ∑ j ∈ Finset.range cols, W (i * cols + j) * x j

/-- The SwiGLU block exactly as the spec writes it:
y = W2 @ (SiLU(W1 @ x) * (W3 @ x)). -/
def specSwiglu (w1M w3M w2M : ℕ → ℝ) (x : ℕ → ℝ) (i : ℕ) : ℝ :=
  matVec interDim w2M (fun j => siluR (matVec inputDim w1M x j) * matVec inputDim w3M x j) i

end

noncomputable section

/-- The caller-owned buffers of main: input_data, w1_weight_data,
w2_weight_data and output_data. -/
structure MemState where
  inputBuf : ℕ → ℝ
  w1Buf : ℕ → ℝ
  w2Buf : ℕ → ℝ
  outBuf : ℕ → ℝ

/-- Whether the graph value carrying external id e is flagged as an
external output. -/
def isExtOutput (sg : Subgraph) (e : ℕ) : Bool :=
  sg.tensors.any (fun t => t.extId == some e && t.flagOut)

/-- Modelled from the spec: a successful synchronous invocation writes
exactly the caller buffers bound to output-flagged external values ("it
returns only after every operator has executed and outputs are fully
written"); constant weight buffers are immutable and unbound buffers are
untouched.  main binds external id 0 to the input buffer and external id 1
to the output buffer. -/
def invokeMem (σ : ℝ → ℝ) (m : MemState) : MemState :=
  let env := evalSubgraph swigluGraph σ (extBind m.inputBuf m.outBuf)
  { m with
      inputBuf := if isExtOutput swigluGraph 0 then env 0 else m.inputBuf,
      outBuf := if isExtOutput swigluGraph 1 then env 1 else m.outBuf }

/-- The buffers of main before invocation: input_data = {1,2,3} (line 375),
the weight arrays as initialized by the loops, and an arbitrary
uninitialized output array. -/
def memBefore (out0 : ℕ → ℝ) : MemState :=
  ⟨inputData, w1Data, w2Data, out0⟩

end

/-- The gate projection W1 @ x of the program's graph. -/
noncomputable def gateOf (x : ℕ → ℝ) (j : ℕ) : ℝ := matVec inputDim w1Data x j

/-- The all-success status environment. -/
def zeroEnv : ℕ → ℕ := fun _ => 0

/-- Status environment in which only call 19 (xnn_create_runtime_v4) fails. -/
def envRt : ℕ → ℕ := fun k => if k = 19 then 1 else 0

/-- Status environment in which only call 0 (xnn_initialize) fails. -/
def envInit : ℕ → ℕ := fun k => if k = 0 then 2 else 0

/-- Status environment in which only call 5 (a tensor definition) fails. -/
def envT5 : ℕ → ℕ := fun k => if k = 5 then 3 else 0

/-- Recognize a graph-definition call. -/
def isDefine (e : Event) : Bool :=
  isCall "xnn_define_tensor_value" e || isCall "xnn_define_fully_connected" e ||
    isCall "xnn_define_unary" e || isCall "xnn_define_multiply2" e

/-- An operator node whose output bounds are both unbounded. -/
def unclamped : OpNode → Bool
  | .fullyConnected lo hi _ _ _ _ => lo.isNone && hi.isNone
  | .unary _ _ _ => true
  | .multiply2 lo hi _ _ _ => lo.isNone && hi.isNone

/-- The contents of the bound output buffer (external id 1) after the graph
runs on input buffer x and initial output buffer out0. -/
noncomputable def progOutput (x out0 : ℕ → ℝ) : ℕ → ℝ :=
  evalSubgraph swigluGraph sigmoidR (extBind x out0) 1

/-- If every call in l succeeds, the run makes exactly those calls, in
order, and reports success. -/
theorem runStages_ok (env : ℕ → ℕ) (k : ℕ) (l : List String)
    (h : ∀ j, j < l.length → env (k + j) = 0) :
    runStages env k l = (l.map (fun n => Event.call n 0), true) := by
  induction l generalizing k with
  | nil => rfl
  | cons a t ih =>
    have h0 : env k = 0 := by simpa using h 0 (by simp)
    have ht : ∀ j, j < t.length → env (k + 1 + j) = 0 := by
      intro j hj
      rw [show k + 1 + j = k + (j + 1) by omega]
      exact h (j + 1) (by simpa using Nat.succ_lt_succ hj)
    simp [runStages, statusOk, h0, ih (k + 1) ht]

/-- If the calls before index i succeed and call i fails, the run makes the
calls up to and including i, prints exactly one diagnostic, and aborts. -/
theorem runStages_fail (env : ℕ → ℕ) (k : ℕ) (l : List String) (i : ℕ)
    (hi : i < l.length) (hpre : ∀ j, j < i → env (k + j) = 0)
    (hf : env (k + i) ≠ 0) :
    runStages env k l =
      ((l.take i).map (fun n => Event.call n 0) ++
        [Event.call (l.getD i "") (env (k + i)),
         Event.stderrLine (diagFor (k + i) (l.getD i "") (env (k + i)))],
       false) := by
  induction l generalizing k i with
  | nil => simp at hi
  | cons a t ih =>
    cases i with
    | zero =>
      have hf0 : env k ≠ 0 := by simpa using hf
      simp [runStages, statusOk, hf0]
    | succ m =>
      have h0 : env k = 0 := by simpa using hpre 0 (Nat.succ_pos m)
      have hpre' : ∀ j, j < m → env (k + 1 + j) = 0 := by
        intro j hj
        rw [show k + 1 + j = k + (j + 1) by omega]
        exact hpre (j + 1) (by omega)
      have hf' : env (k + 1 + m) ≠ 0 := by
        rw [show k + 1 + m = k + (m + 1) by omega]; exact hf
      have hrec := ih (k + 1) m (by simpa using Nat.lt_of_succ_lt_succ hi) hpre' hf'
      rw [show k + (m + 1) = k + 1 + m by omega]
      simp [runStages, statusOk, h0, hrec]

/-- On an all-success environment the trace is the full call sequence
followed by the output line and the four teardown calls, with exit code 0. -/
theorem runTrace_ok (env : ℕ → ℕ) (h : ∀ j, j < 25 → env j = 0) :
    runTrace env =
      (callSeq.map (fun n => Event.call n 0) ++
        [Event.stdoutOutput,
         Event.callU "xnn_delete_runtime",
         Event.callU "xnn_release_workspace",
         Event.callU "xnn_delete_subgraph",
         Event.callU "xnn_deinitialize"], 0) := by
  have hlen : callSeq.length = 25 := rfl
  have := runStages_ok env 0 callSeq (by intro j hj; rw [hlen] at hj; simpa using h j hj)
  unfold runTrace
  rw [this]

/-- On an environment whose first failing call is i, the trace is the calls
up to i followed by the single diagnostic, with exit code 1. -/
theorem runTrace_fail (env : ℕ → ℕ) (i : ℕ) (hi : i < 25)
    (hpre : ∀ j, j < i → env j = 0) (hf : env i ≠ 0) :
    runTrace env =
      ((callSeq.take i).map (fun n => Event.call n 0) ++
        [Event.call (callSeq.getD i "") (env i),
         Event.stderrLine (diagFor i (callSeq.getD i "") (env i))], 1) := by
  have hlen : callSeq.length = 25 := rfl
  have := runStages_fail env 0 callSeq i (by rw [hlen]; exact hi)
      (by intro j hj; simpa using hpre j hj) (by simpa using hf)
  unfold runTrace
  rw [this]
  simp

/-- The working values of the program's graph after all operators ran, for
input buffer x and initial output buffer out0: value 3 is the gate
projection, value 5 the up projection, value 6 the sigmoid of the gate,
value 7 the SiLU value, value 8 the fused (gated) value, and value 1 the
bound output W2 @ fused.  All six follow by definitional unfolding of the
graph the program builds. -/
theorem swigluEnv (σ : ℝ → ℝ) (x out0 : ℕ → ℝ) :
    (∀ k, evalSubgraph swigluGraph σ (extBind x out0) 3 k = gateOf x k) ∧
    (∀ k, evalSubgraph swigluGraph σ (extBind x out0) 5 k = gateOf x k) ∧
    (∀ k, evalSubgraph swigluGraph σ (extBind x out0) 6 k = σ (gateOf x k)) ∧
    (∀ k, evalSubgraph swigluGraph σ (extBind x out0) 7 k =
      gateOf x k * σ (gateOf x k)) ∧
    (∀ k, evalSubgraph swigluGraph σ (extBind x out0) 8 k =
      (gateOf x k * σ (gateOf x k)) * gateOf x k) ∧
    (∀ i, evalSubgraph swigluGraph σ (extBind x out0) 1 i =
      ∑ j ∈ Finset.range interDim,
        w2Data (i * interDim + j) *
          ((gateOf x j * σ (gateOf x j)) * gateOf x j)) :=
  ⟨fun _ => rfl, fun _ => rfl, fun _ => rfl, fun _ => rfl, fun _ => rfl, fun _ => rfl⟩

/-- The four gate values of the literal run: W1 @ [1,2,3] = [7/6, 8/3, 25/6, 17/3]. -/
theorem gate_literal :
    gateOf inputData 0 = 7 / 6 ∧ gateOf inputData 1 = 8 / 3 ∧
    gateOf inputData 2 = 25 / 6 ∧ gateOf inputData 3 = 17 / 3 := by
  refine ⟨?_, ?_, ?_, ?_⟩ <;>
    · simp only [gateOf, matVec, inputDim, interDim, w1Data, inputData,
        Finset.sum_range_succ, Finset.sum_range_zero]
      norm_num

/-- Rational bounds on exp(1/6), from the degree-8 Taylor expansion with
Lagrange remainder bound. -/
theorem exp_sixth_bounds :
    (118136041 / 100000000 : ℝ) ≤ Real.exp (1 / 6) ∧
    Real.exp (1 / 6) ≤ 118136042 / 100000000 := by
  have hx : |(1 / 6 : ℝ)| ≤ 1 := by
    rw [abs_of_pos] <;> norm_num
  have h := @Real.exp_bound (1 / 6 : ℝ) hx 8 (by norm_num)
  rw [abs_le] at h
  obtain ⟨h1, h2⟩ := h
  have habs : |(1 / 6 : ℝ)| = 1 / 6 := by
    rw [abs_of_pos]; norm_num
  rw [habs] at h1 h2
  norm_num [Finset.sum_range_succ, Nat.factorial] at h1 h2
  constructor <;> linarith

/-- exp at the four gate values, as powers of exp(1/6). -/
theorem exp_gate_eq :
    Real.exp (7 / 6) = Real.exp (1 / 6) ^ 7 ∧
    Real.exp (8 / 3) = Real.exp (1 / 6) ^ 16 ∧
    Real.exp (25 / 6) = Real.exp (1 / 6) ^ 25 ∧
    Real.exp (17 / 3) = Real.exp (1 / 6) ^ 34 := by
  refine ⟨?_, ?_, ?_, ?_⟩
  · rw [← Real.exp_nat_mul]; norm_num
  · rw [← Real.exp_nat_mul]; norm_num
  · rw [← Real.exp_nat_mul]; norm_num
  · rw [← Real.exp_nat_mul]; norm_num

/-- The sigmoid equals E/(E+1) for E = exp of the argument. -/
theorem sigmoidR_eq (t : ℝ) :
    sigmoidR t = Real.exp t / (Real.exp t + 1) := by
  have h : Real.exp t ≠ 0 := (Real.exp_pos t).ne'
  rw [sigmoidR, Real.exp_neg]
  rw [div_eq_div_iff (by positivity) (by positivity)]
  field_simp

/-- Lower bound on the sigmoid from a lower bound on exp. -/
theorem sigmoid_lb {g a : ℝ} (ha : 0 < a) (h : a ≤ Real.exp g) :
    a / (a + 1) ≤ sigmoidR g := by
  rw [sigmoidR_eq]
  have hE := Real.exp_pos g
  rw [div_le_div_iff (by linarith) (by linarith)]
  nlinarith

/-- Upper bound on the sigmoid from an upper bound on exp. -/
theorem sigmoid_ub {g b : ℝ} (h : Real.exp g ≤ b) :
    sigmoidR g ≤ b / (b + 1) := by
  have hE := Real.exp_pos g
  have hb : 0 < b := lt_of_lt_of_le hE h
  rw [sigmoidR_eq]
  rw [div_le_div_iff (by linarith) (by linarith)]
  nlinarith

/-- Decimal interval bounds on the sigmoid at the four gate values of the
literal run. -/
theorem sig_gate_bounds :
    ((762541968 / 1000000000 : ℝ) ≤ sigmoidR (7 / 6) ∧
      sigmoidR (7 / 6) ≤ 762541980 / 1000000000) ∧
    ((935030828 / 1000000000 : ℝ) ≤ sigmoidR (8 / 3) ∧
      sigmoidR (8 / 3) ≤ 935030837 / 1000000000) ∧
    ((984732845 / 1000000000 : ℝ) ≤ sigmoidR (25 / 6) ∧
      sigmoidR (25 / 6) ≤ 984732849 / 1000000000) ∧
    ((996552548 / 1000000000 : ℝ) ≤ sigmoidR (17 / 3) ∧
      sigmoidR (17 / 3) ≤ 996552550 / 1000000000) := by
  obtain ⟨hL, hU⟩ := exp_sixth_bounds
  obtain ⟨e1, e2, e3, e4⟩ := exp_gate_eq
  have hLnn : (0 : ℝ) ≤ 118136041 / 100000000 := by norm_num
  have l0 : (118136041 / 100000000 : ℝ) ^ 7 ≤ Real.exp (7 / 6) := by
    rw [e1]; exact pow_le_pow_left hLnn hL 7
  have u0 : Real.exp (7 / 6) ≤ (118136042 / 100000000 : ℝ) ^ 7 := by
    rw [e1]; exact pow_le_pow_left (Real.exp_pos _).le hU 7
  have l1 : (118136041 / 100000000 : ℝ) ^ 16 ≤ Real.exp (8 / 3) := by
    rw [e2]; exact pow_le_pow_left hLnn hL 16
  have u1 : Real.exp (8 / 3) ≤ (118136042 / 100000000 : ℝ) ^ 16 := by
    rw [e2]; exact pow_le_pow_left (Real.exp_pos _).le hU 16
  have l2 : (118136041 / 100000000 : ℝ) ^ 25 ≤ Real.exp (25 / 6) := by
    rw [e3]; exact pow_le_pow_left hLnn hL 25
  have u2 : Real.exp (25 / 6) ≤ (118136042 / 100000000 : ℝ) ^ 25 := by
    rw [e3]; exact pow_le_pow_left (Real.exp_pos _).le hU 25
  have l3 : (118136041 / 100000000 : ℝ) ^ 34 ≤ Real.exp (17 / 3) := by
    rw [e4]; exact pow_le_pow_left hLnn hL 34
  have u3 : Real.exp (17 / 3) ≤ (118136042 / 100000000 : ℝ) ^ 34 := by
    rw [e4]; exact pow_le_pow_left (Real.exp_pos _).le hU 34
  refine ⟨⟨?_, ?_⟩, ⟨?_, ?_⟩, ⟨?_, ?_⟩, ⟨?_, ?_⟩⟩
  · exact le_trans (by norm_num) (sigmoid_lb (by positivity) l0)
  · exact le_trans (sigmoid_ub u0) (by norm_num)
  · exact le_trans (by norm_num) (sigmoid_lb (by positivity) l1)
  · exact le_trans (sigmoid_ub u1) (by norm_num)
  · exact le_trans (by norm_num) (sigmoid_lb (by positivity) l2)
  · exact le_trans (sigmoid_ub u2) (by norm_num)
  · exact le_trans (by norm_num) (sigmoid_lb (by positivity) l3)
  · exact le_trans (sigmoid_ub u3) (by norm_num)

/-- Claim C1: the program's graph computes the SwiGLU block: the bound
output equals W2 @ (SiLU(W1 @ x) * (W3 @ x)) (with the program's W3 weight
buffer, which is w1_weight_data), built as the five-step dataflow
gate = W1 @ x, up = W3 @ x, silu = gate * sigmoid(gate), fused = silu * up,
y = W2 @ fused, and the operator list is exactly the three bias-free
fully-connected nodes, the sigmoid and the two multiplies of that dataflow. -/
theorem swiglu_graph_refines_spec :
    (∀ x out0 : ℕ → ℝ, ∀ i, progOutput x out0 i = specSwiglu w1Data w1Data w2Data x i) ∧
    (∀ x out0 : ℕ → ℝ, ∀ k,
      evalSubgraph swigluGraph sigmoidR (extBind x out0) 3 k = matVec inputDim w1Data x k ∧
      evalSubgraph swigluGraph sigmoidR (extBind x out0) 5 k = matVec inputDim w1Data x k ∧
      evalSubgraph swigluGraph sigmoidR (extBind x out0) 7 k =
        evalSubgraph swigluGraph sigmoidR (extBind x out0) 3 k *
          sigmoidR (evalSubgraph swigluGraph sigmoidR (extBind x out0) 3 k) ∧
      evalSubgraph swigluGraph sigmoidR (extBind x out0) 8 k =
        evalSubgraph swigluGraph sigmoidR (extBind x out0) 7 k *
          evalSubgraph swigluGraph sigmoidR (extBind x out0) 5 k) ∧
    swigluGraph.ops =
      [OpNode.fullyConnected none none 0 2 none 3,
       OpNode.fullyConnected none none 0 4 none 5,
       OpNode.unary .sigmoid 3 6,
       OpNode.multiply2 none none 3 6 7,
       OpNode.multiply2 none none 7 5 8,
       OpNode.fullyConnected none none 8 9 none 1] :=
  ⟨fun _ _ _ => rfl, fun _ _ _ => ⟨rfl, rfl, rfl, rfl⟩, rfl⟩

/-- Claim C6: the w3 (up-projection) filter tensor, value id 4, is defined
from the same weight buffer w1_weight_data as the w1 (gate-projection)
filter tensor, value id 2; consequently the up projection (value 5) equals
the gate projection (value 3) on every input. -/
theorem up_projection_shares_gate_weights :
    ((findTensor swigluGraph 2).bind TensorDef.tdata = some w1Data ∧
     (findTensor swigluGraph 4).bind TensorDef.tdata = some w1Data) ∧
    (∀ x out0 : ℕ → ℝ, ∀ k,
      evalSubgraph swigluGraph sigmoidR (extBind x out0) 5 k =
        evalSubgraph swigluGraph sigmoidR (extBind x out0) 3 k) :=
  ⟨⟨rfl, rfl⟩, fun _ _ _ => rfl⟩

/-- Claim C9: every operator node of the graph has unbounded output
clamping bounds (the -INFINITY / INFINITY arguments of the source, modelled
as none), and the unbounded clamp is the identity, so no operator clamps
its result. -/
theorem operators_unclamped :
    swigluGraph.ops.all unclamped = true ∧
    (∀ v : ℝ, clampOpt none none v = v) :=
  ⟨rfl, fun _ => rfl⟩

/-- Claim C10: a successful invocation writes only the bound output buffer:
the input buffer still holds {1,2,3}, both weight buffers still hold the
values computed by the initialization loops, and the output buffer holds
the SwiGLU value. -/
theorem invoke_writes_only_output :
    ∀ out0 : ℕ → ℝ,
      (invokeMem sigmoidR (memBefore out0)).inputBuf = inputData ∧
      (inputData 0 = 1 ∧ inputData 1 = 2 ∧ inputData 2 = 3) ∧
      (invokeMem sigmoidR (memBefore out0)).w1Buf = w1Data ∧
      (invokeMem sigmoidR (memBefore out0)).w2Buf = w2Data ∧
      (∀ i, (invokeMem sigmoidR (memBefore out0)).outBuf i =
        specSwiglu w1Data w1Data w2Data inputData i) :=
  fun _ => ⟨rfl, ⟨rfl, rfl, rfl⟩, rfl, rfl, fun _ => rfl⟩

/-- Claim C2: on the literal input {1,2,3} with the literal weight
initialization of the source, the bound output is [24.203243, 52.594986]
up to an absolute error of 1e-4 in each component (real-arithmetic engine
semantics, exact sigmoid). -/
theorem swiglu_literal_output_within_tolerance :
    ∀ out0 : ℕ → ℝ,
      |progOutput inputData out0 0 - 24203243 / 1000000| ≤ 1 / 10000 ∧
      |progOutput inputData out0 1 - 52594986 / 1000000| ≤ 1 / 10000 := by
  intro out0
  have henv := (swigluEnv sigmoidR inputData out0).2.2.2.2.2
  obtain ⟨g0, g1, g2, g3⟩ := gate_literal
  have h0 := henv 0
  have h1 := henv 1
  simp only [interDim, Finset.sum_range_succ, Finset.sum_range_zero, gateOf] at h0 h1
  rw [show matVec inputDim w1Data inputData 0 = gateOf inputData 0 from rfl, g0,
      show matVec inputDim w1Data inputData 1 = gateOf inputData 1 from rfl, g1,
      show matVec inputDim w1Data inputData 2 = gateOf inputData 2 from rfl, g2,
      show matVec inputDim w1Data inputData 3 = gateOf inputData 3 from rfl, g3] at h0 h1
  norm_num [w2Data, outputDim, interDim] at h0 h1
  obtain ⟨⟨s0l, s0u⟩, ⟨s1l, s1u⟩, ⟨s2l, s2u⟩, ⟨s3l, s3u⟩⟩ := sig_gate_bounds
  constructor
  · rw [show progOutput inputData out0 0 =
        evalSubgraph swigluGraph sigmoidR (extBind inputData out0) 1 0 from rfl, h0, abs_le]
    constructor <;> nlinarith
  · rw [show progOutput inputData out0 1 =
        evalSubgraph swigluGraph sigmoidR (extBind inputData out0) 1 1 from rfl, h1, abs_le]
    constructor <;> nlinarith

/-- Claim C3 counterexample: when runtime creation (call 19) fails, the
subgraph and workspace creations had succeeded but the program exits with
code 1 without any release call at all, so those successful creations have
no matching release before process exit. -/
theorem resource_leak_on_runtime_failure :
    (runTrace envRt).1.countP (isCall "xnn_create_subgraph") = 1 ∧
    (runTrace envRt).1.countP (isCall "xnn_create_workspace") = 1 ∧
    (runTrace envRt).1.countP isRelease = 0 ∧
    (runTrace envRt).2 = 1 := by
  decide

/-- Claim C3 amended: on the all-success path every successful creation
call (subgraph, workspace, runtime) has a matching release call before
exit; on every failure path the program returns immediately and performs no
release call whatsoever, so resources that were never created are never
released, but resources created before the failing stage are not released
either. -/
theorem release_matching_amended :
    ((runTrace zeroEnv).1.countP (isCall "xnn_create_subgraph") = 1 ∧
     (runTrace zeroEnv).1.countP (isCallU "xnn_delete_subgraph") = 1 ∧
     (runTrace zeroEnv).1.countP (isCall "xnn_create_workspace") = 1 ∧
     (runTrace zeroEnv).1.countP (isCallU "xnn_release_workspace") = 1 ∧
     (runTrace zeroEnv).1.countP (isCall "xnn_create_runtime_v4") = 1 ∧
     (runTrace zeroEnv).1.countP (isCallU "xnn_delete_runtime") = 1) ∧
    (∀ env i, i < 25 → (∀ j, j < i → env j = 0) → env i ≠ 0 →
      (runTrace env).1.countP isRelease = 0) := by
  constructor
  · decide
  · intro env i hi hpre hf
    rw [runTrace_fail env i hi hpre hf]
    simp [List.countP_append, List.countP_map, List.countP_cons, isRelease,
      isCallU, Function.comp]
    intro a ha
    obtain ⟨n, _, rfl⟩ := List.mem_map.1 (List.mem_of_mem_take ha)
    simp

/-- Witness for the amended C3 at the concrete runtime-creation failure. -/
theorem release_matching_amended_witness :
    (19 < 25 ∧ envRt 19 ≠ 0) ∧ (runTrace envRt).1.countP isRelease = 0 :=
  ⟨⟨by norm_num, by decide⟩,
   release_matching_amended.2 envRt 19 (by norm_num) (by decide) (by decide)⟩

/-- Claim C4: on the success path the four teardown calls each occur
exactly once and in strict reverse order of acquisition: the runtime is
deleted first, then the workspace released, then the subgraph deleted, then
the library deinitialized; in particular the subgraph and the workspace are
never released before the runtime. -/
theorem teardown_reverse_order :
    ∀ env : ℕ → ℕ, (∀ j, j < 25 → env j = 0) →
      ((runTrace env).1.countP (isCallU "xnn_delete_runtime") = 1 ∧
       (runTrace env).1.countP (isCallU "xnn_release_workspace") = 1 ∧
       (runTrace env).1.countP (isCallU "xnn_delete_subgraph") = 1 ∧
       (runTrace env).1.countP (isCallU "xnn_deinitialize") = 1) ∧
      ((runTrace env).1.findIdx (isCallU "xnn_delete_runtime") <
         (runTrace env).1.findIdx (isCallU "xnn_release_workspace") ∧
       (runTrace env).1.findIdx (isCallU "xnn_release_workspace") <
         (runTrace env).1.findIdx (isCallU "xnn_delete_subgraph") ∧
       (runTrace env).1.findIdx (isCallU "xnn_delete_subgraph") <
         (runTrace env).1.findIdx (isCallU "xnn_deinitialize")) := by
  intro env h
  rw [runTrace_ok env h]
  decide

/-- Witness for C4 at the all-success environment. -/
theorem teardown_reverse_order_witness :
    (∀ j, j < 25 → zeroEnv j = 0) ∧
    (runTrace zeroEnv).1.findIdx (isCallU "xnn_delete_runtime") <
      (runTrace zeroEnv).1.findIdx (isCallU "xnn_release_workspace") :=
  ⟨by decide, (teardown_reverse_order zeroEnv (by decide)).2.1⟩

/-- Claim C5 counterexample: when xnn_initialize fails (status 2) the
single diagnostic line is the fixed string "Failed to initialize XNNPACK"
(line 28 of the source): it names neither the literal call nor the status
code, refuting the claim that every stage's diagnostic names the failing
call and its status code. -/
theorem init_diagnostic_lacks_status :
    runTrace envInit =
      ([Event.call "xnn_initialize" 2,
        Event.stderrLine "Failed to initialize XNNPACK"], 1) ∧
    diagFor 0 (callSeq.getD 0 "") (envInit 0) ≠
      callSeq.getD 0 "" ++ " failed: " ++ toString (envInit 0) := by
  constructor
  · decide
  · decide

/-- Claim C5 amended: if the first failing checked call is call i, the
program makes exactly the calls up to i, emits exactly one stderr
diagnostic and nothing to stdout, and returns exit code 1 without executing
any later stage; for every stage except library initialization (1 <= i) the
diagnostic names the failing call and its status code, whereas the
initialization failure prints a fixed one-line diagnostic without the
status code. -/
theorem failure_diagnostic_amended :
    ∀ env i, i < 25 → (∀ j, j < i → env j = 0) → env i ≠ 0 →
      runTrace env =
        ((callSeq.take i).map (fun n => Event.call n 0) ++
          [Event.call (callSeq.getD i "") (env i),
           Event.stderrLine (diagFor i (callSeq.getD i "") (env i))], 1) ∧
      (runTrace env).1.countP isStderr = 1 ∧
      (runTrace env).1.countP isStdout = 0 ∧
      (1 ≤ i → diagFor i (callSeq.getD i "") (env i) =
        callSeq.getD i "" ++ " failed: " ++ toString (env i)) ∧
      (i = 0 → diagFor i (callSeq.getD i "") (env i) =
        "Failed to initialize XNNPACK") := by
  intro env i hi hpre hf
  have ht := runTrace_fail env i hi hpre hf
  refine ⟨ht, ?_, ?_, ?_, ?_⟩
  · rw [ht]
    simp [List.countP_append, List.countP_map, List.countP_cons, isStderr,
      Function.comp]
    intro a ha
    obtain ⟨n, _, rfl⟩ := List.mem_map.1 (List.mem_of_mem_take ha)
    simp
  · rw [ht]
    simp [List.countP_append, List.countP_map, List.countP_cons, isStdout,
      Function.comp]
    intro a ha
    obtain ⟨n, _, rfl⟩ := List.mem_map.1 (List.mem_of_mem_take ha)
    simp
  · intro h1
    simp only [diagFor]
    rw [if_neg (by omega)]
  · intro h0
    subst h0
    rfl

/-- Witness for the amended C5 at a concrete tensor-definition failure. -/
theorem failure_diagnostic_amended_witness :
    (5 < 25 ∧ envT5 5 ≠ 0) ∧
    diagFor 5 (callSeq.getD 5 "") (envT5 5) =
      callSeq.getD 5 "" ++ " failed: " ++ toString (envT5 5) :=
  ⟨⟨by norm_num, by decide⟩,
   (failure_diagnostic_amended envT5 5 (by norm_num) (by decide)
       (by decide)).2.2.2.1 (by norm_num)⟩

/-- Claim C7: on the success path, all sixteen graph-definition calls occur
before the runtime is created; the runtime is created before any reshape;
both external reshapes occur before the runtime reshape; then the external
buffers are bound (setup), then the runtime is invoked, and the output line
is printed only after the invoke call; the invocation itself synchronously
produces the fully written output buffer. -/
theorem invocation_call_order :
    ∀ env : ℕ → ℕ, (∀ j, j < 25 → env j = 0) →
      (((runTrace env).1.take
          ((runTrace env).1.findIdx (isCall "xnn_create_runtime_v4"))).countP
            isDefine = 16 ∧
       (runTrace env).1.countP isDefine = 16) ∧
      ((runTrace env).1.findIdx (isCall "xnn_create_runtime_v4") <
         (runTrace env).1.findIdx (isCall "xnn_reshape_external_value") ∧
       ((runTrace env).1.take
          ((runTrace env).1.findIdx (isCall "xnn_reshape_runtime"))).countP
            (isCall "xnn_reshape_external_value") = 2 ∧
       (runTrace env).1.findIdx (isCall "xnn_reshape_runtime") <
         (runTrace env).1.findIdx (isCall "xnn_setup_runtime_v2") ∧
       (runTrace env).1.findIdx (isCall "xnn_setup_runtime_v2") <
         (runTrace env).1.findIdx (isCall "xnn_invoke_runtime") ∧
       (runTrace env).1.findIdx (isCall "xnn_invoke_runtime") <
         (runTrace env).1.findIdx isStdout) ∧
      (∀ out0 : ℕ → ℝ, ∀ i,
        (invokeMem sigmoidR (memBefore out0)).outBuf i =
          progOutput inputData out0 i) := by
  intro env h
  refine ⟨?_, ?_, fun out0 i => rfl⟩
  · rw [runTrace_ok env h]; decide
  · rw [runTrace_ok env h]; decide

/-- Witness for C7 at the all-success environment. -/
theorem invocation_call_order_witness :
    (∀ j, j < 25 → zeroEnv j = 0) ∧
    (runTrace zeroEnv).1.findIdx (isCall "xnn_create_runtime_v4") <
      (runTrace zeroEnv).1.findIdx (isCall "xnn_reshape_external_value") :=
  ⟨by decide, (invocation_call_order zeroEnv (by decide)).2.1.1⟩

/-- Claim C8: on a fully successful run the trace carries exactly one
stdout output line and the exit code is 0; on any failure the exit code is
1 and nothing is written to stdout. -/
theorem stdout_and_exit_codes :
    (∀ env : ℕ → ℕ, (∀ j, j < 25 → env j = 0) →
      (runTrace env).1.countP isStdout = 1 ∧ (runTrace env).2 = 0) ∧
    (∀ env i, i < 25 → (∀ j, j < i → env j = 0) → env i ≠ 0 →
      (runTrace env).1.countP isStdout = 0 ∧ (runTrace env).2 = 1) := by
  constructor
  · intro env h
    rw [runTrace_ok env h]
    decide
  · intro env i hi hpre hf
    rw [runTrace_fail env i hi hpre hf]
    constructor
    · simp [List.countP_append, List.countP_map, List.countP_cons, isStdout,
        Function.comp]
      intro a ha
      obtain ⟨n, _, rfl⟩ := List.mem_map.1 (List.mem_of_mem_take ha)
      simp
    · rfl

/-- Witness for C8 at the all-success environment and at a concrete
failing environment. -/
theorem stdout_and_exit_codes_witness :
    ((∀ j, j < 25 → zeroEnv j = 0) ∧ (runTrace zeroEnv).2 = 0) ∧
    (envT5 5 ≠ 0 ∧ (runTrace envT5).2 = 1) :=
  ⟨⟨by decide, (stdout_and_exit_codes.1 zeroEnv (by decide)).2⟩,
   ⟨by decide, (stdout_and_exit_codes.2 envT5 5 (by norm_num) (by decide)
       (by decide)).2⟩⟩
